import Mathlib

/-!
Verification of the polygate execution gateway (Go) against its
natural-language specification, via a shallow embedding of the relevant
source functions into Lean.

Bytes are modelled as `Nat` (values kept below 256 by the encoders),
byte strings as `List Nat`, machine integers as `Nat`/`Int` with explicit
reductions modulo `2 ^ w` where the Go code truncates, and monetary/price
arithmetic as `ℚ` (the Go code mixes float64 and arbitrary-precision
decimals; the claims settled here do not depend on binary-float rounding).
External collaborators (keccak256, secp256k1, the exchange HTTP client,
the SDK order builder) are passed in as explicit function parameters.
-/

namespace Polygate

/-! ## Byte-level helpers -/

/-- 32-byte big-endian encoding of `n mod 2^256`, as produced by
go-ethereum `math.U256Bytes` on the hot path of `eip712.go`. -/
def be32 (n : Nat) : List Nat :=
  (List.range 32).map (fun i => n / 256 ^ (31 - i) % 256)

/-- Encoding of a 20-byte address left-padded to 32 bytes: `eip712.go`
copies `addr.Bytes()` (20 bytes) into the last 20 bytes of a zeroed
32-byte word, which coincides with `be32` on values below `2 ^ 160`. -/
def addr32 (a : Nat) : List Nat := be32 (a % 2 ^ 160)

/-- UTF-8 bytes of an ASCII string (all strings hashed by the signer are
ASCII, where UTF-8 agrees with the code points). -/
def strBytes (s : String) : List Nat := s.data.map Char.toNat

/-! ## Hex encoding (go-ethereum `common.Bytes2Hex` / `hexutil.Decode`) -/

/-- Lower-case hex digit for `n < 16`. -/
def hexDigitChar (n : Nat) : Char :=
  if n < 10 then Char.ofNat (48 + n) else Char.ofNat (97 + (n - 10))

/-- Two lower-case hex characters for a byte, as `common.Bytes2Hex`. -/
def byteHex (b : Nat) : List Char := [hexDigitChar (b / 16), hexDigitChar (b % 16)]

/-- `common.Bytes2Hex`: lower-case hex of a byte string (no 0x). -/
def bytesToHex (bs : List Nat) : String :=
  ⟨bs.foldr (fun b acc => byteHex b ++ acc) []⟩

/-- Value of one hex character (upper or lower case). -/
def hexVal (c : Char) : Option Nat :=
  if 48 ≤ c.toNat ∧ c.toNat ≤ 57 then some (c.toNat - 48)
  else if 97 ≤ c.toNat ∧ c.toNat ≤ 102 then some (c.toNat - 87)
  else if 65 ≤ c.toNat ∧ c.toNat ≤ 70 then some (c.toNat - 55)
  else none

/-- Decode pairs of hex characters into bytes; fails on odd length or a
non-hex character. -/
def hexPairs : List Char → Option (List Nat)
  | [] => some []
  | [_] => none
  | c1 :: c2 :: rest =>
    match hexVal c1, hexVal c2, hexPairs rest with
    | some h, some l, some bs => some ((h * 16 + l) :: bs)
    | _, _, _ => none

/-- `hexutil.Decode`: requires the `0x` marker, then an even number of hex
characters. -/
def hexDecode (s : String) : Option (List Nat) :=
  match s.data with
  | '0' :: 'x' :: rest => hexPairs rest
  | _ => none

/-! ## EIP-712 signer, from `internal/signer/eip712.go` -/

/-- The exact type string the Go code hashes for `OrderTypeHash`
(`eip712.go` line 26). Note the `clobtypes.` package-name leak. -/
def orderTypeString : String :=
  "clobtypes.Order(uint256 salt,address maker,address signer,address taker,uint256 tokenId,uint256 makerAmount,uint256 takerAmount,uint256 expiration,uint256 nonce,uint256 feeRateBps,uint8 side,uint8 signatureType)"

/-- The type string the specification prescribes for `ORDER_TYPEHASH`
(spec §4.1 step 2), stated verbatim for comparison with the source. -/
def specOrderTypeString : String :=
  "Order(uint256 salt,address maker,address signer,address taker,uint256 tokenId,uint256 makerAmount,uint256 takerAmount,uint256 expiration,uint256 nonce,uint256 feeRateBps,uint8 side,uint8 signatureType)"

/-- `EIP712DomainTypeHash` preimage string (`eip712.go` line 22). -/
def eip712DomainTypeString : String :=
  "EIP712Domain(string name,string version,uint256 chainId,address verifyingContract)"

/-- EIP-712 domain name constant (`eip712.go`). -/
def eip712DomainName : String := "Polymarket CTF Exchange"

/-- EIP-712 domain version constant (`eip712.go`). -/
def eip712DomainVersion : String := "1"

/-- Exchange contract address on Polygon (`eip712.go`). -/
def exchangeContractAddr : Nat := 0x4bFb41d5B3570DeFd03C39a9A4D8dE6Bd8B8982E

/-- `signer.Order`: the struct fed to the optimized signer. In Go the ten
uint256 fields are `*big.Int` where a nil pointer encodes exactly like 0,
so both are modelled as the value 0. `side` and `sigType` are uint8. -/
structure SignerOrder where
  salt : Nat
  maker : Nat
  signer : Nat
  taker : Nat
  tokenId : Nat
  makerAmount : Nat
  takerAmount : Nat
  expiration : Nat
  nonce : Nat
  feeRateBps : Nat
  side : Nat
  sigType : Nat
deriving DecidableEq

/-- ABI encoding of the twelve order fields in order, as laid out byte by
byte in `hashOrder` (`eip712.go` lines 147-206). -/
def encodeOrderFields (o : SignerOrder) : List Nat :=
  be32 o.salt ++ addr32 o.maker ++ addr32 o.signer ++ addr32 o.taker ++
  be32 o.tokenId ++ be32 o.makerAmount ++ be32 o.takerAmount ++
  be32 o.expiration ++ be32 o.nonce ++ be32 o.feeRateBps ++
  be32 o.side ++ be32 o.sigType

/-- The byte string whose keccak256 is the struct hash computed by
`hashOrder`: the code's `OrderTypeHash` followed by the encoded fields. -/
def structPreimage (keccak : List Nat → List Nat) (o : SignerOrder) : List Nat :=
  keccak (strBytes orderTypeString) ++ encodeOrderFields o

/-- `hashOrder` (`eip712.go`): `keccak256(OrderTypeHash ++ fields)`. -/
def hashOrder (keccak : List Nat → List Nat) (o : SignerOrder) : List Nat :=
  keccak (structPreimage keccak o)

/-- The struct-hash preimage the specification prescribes: identical
layout but with `ORDER_TYPEHASH` derived from `specOrderTypeString`
(spec §4.1 step 2). -/
def specStructPreimage (keccak : List Nat → List Nat) (o : SignerOrder) : List Nat :=
  keccak (strBytes specOrderTypeString) ++ encodeOrderFields o

/-- Domain separator pre-computed in `NewSigner` (`eip712.go` lines
82-104): manual ABI encoding of the five 32-byte words. -/
def domainSeparator (keccak : List Nat → List Nat) (chainID : Nat) : List Nat :=
  keccak (keccak (strBytes eip712DomainTypeString) ++
    keccak (strBytes eip712DomainName) ++
    keccak (strBytes eip712DomainVersion) ++
    be32 chainID ++ addr32 exchangeContractAddr)

/-- The EIP-191/EIP-712 digest signed by `SignOrder` (`eip712.go` line
124): `keccak256(0x19 0x01 ++ domainSeparator ++ hashStruct)`. -/
def signDigest (keccak : List Nat → List Nat) (chainID : Nat) (o : SignerOrder) : List Nat :=
  keccak ([0x19, 0x01] ++ domainSeparator keccak chainID ++ hashOrder keccak o)

/-- V adjustment in `SignOrder` (`eip712.go` lines 137-139): if the 65th
byte is below 27, add 27. Stated via take/append, which on 65-byte inputs
coincides with the in-place `signature[64] += 27`. -/
def adjustV (sig : List Nat) : List Nat :=
  let v := sig.getD 64 0
  sig.take 64 ++ [if v < 27 then v + 27 else v]

/-- `SignOrder` (`eip712.go` lines 116-143): hash, sign with the key's
ECDSA function (passed abstractly as `ecSign`), adjust V, hex-encode. -/
def signOrder (keccak : List Nat → List Nat) (ecSign : List Nat → List Nat)
    (chainID : Nat) (o : SignerOrder) : String :=
  "0x" ++ bytesToHex (adjustV (ecSign (signDigest keccak chainID o)))

/-! ## Typed-data verifier, from `internal/service/signing.go` -/

/-- `clobtypes.Order` as used by the gateway (SDK type): the uint256-like
fields as `Nat` (a nil `Expiration` big-int is `none`), the side as the
raw string, the signature type as an optional small integer. -/
structure ClobOrder where
  salt : Nat
  maker : Nat
  signer : Nat
  taker : Nat
  tokenId : Nat
  makerAmount : Nat
  takerAmount : Nat
  expiration : Option Nat
  nonce : Nat
  feeRateBps : Nat
  side : String
  signatureType : Option Nat
deriving DecidableEq

/-- The `clobtypes.Order` field list registered in `buildTypedData`
(`signing.go` lines 67-80), as (name, solidity type) pairs in order. -/
def clobOrderFieldDefs : List (String × String) :=
  [("salt", "uint256"), ("maker", "address"), ("signer", "address"),
   ("taker", "address"), ("tokenId", "uint256"), ("makerAmount", "uint256"),
   ("takerAmount", "uint256"), ("expiration", "uint256"), ("nonce", "uint256"),
   ("feeRateBps", "uint256"), ("side", "uint8"), ("signatureType", "uint8")]

/-- EIP-712 `encodeType` of a struct: `Name(type1 name1,type2 name2,...)`,
as computed by go-ethereum `apitypes` for a type with no struct-typed
fields. -/
def encodeTypeString (primary : String) (fields : List (String × String)) : String :=
  primary ++ "(" ++ String.intercalate "," (fields.map (fun f => f.2 ++ " " ++ f.1)) ++ ")"

/-- Go `strings.ToUpper` restricted to ASCII (all side strings compared
by the gateway are ASCII). -/
def asciiUpperChar (c : Char) : Char :=
  if 97 ≤ c.toNat ∧ c.toNat ≤ 122 then Char.ofNat (c.toNat - 32) else c

/-- Upper-case an ASCII string, as `strings.ToUpper` does on ASCII. -/
def upperAscii (s : String) : String := ⟨s.data.map asciiUpperChar⟩

/-- Side integer computed in `buildTypedData` (`signing.go` lines 83-86):
0 unless the upper-cased side string is exactly SELL. -/
def sideInt (side : String) : Nat := if upperAscii side = "SELL" then 1 else 0

/-- Struct hash of the message built by `buildTypedData`, as hashed by
go-ethereum `apitypes.TypedDataAndHash` (external library, out of scope;
modelled by the standard EIP-712 hashStruct: keccak256 of the type hash
followed by the 32-byte-encoded field values in declaration order).
`signerAddr` is the `signer` parameter of `buildTypedData`, which fills
the message's `signer` slot; nil salt/tokenId/nonce pointers do not occur
on the verified paths. -/
def typedDataStructHash (keccak : List Nat → List Nat) (o : ClobOrder)
    (signerAddr : Nat) : List Nat :=
  keccak (keccak (strBytes (encodeTypeString "clobtypes.Order" clobOrderFieldDefs)) ++
    be32 o.salt ++ addr32 o.maker ++ addr32 signerAddr ++ addr32 o.taker ++
    be32 o.tokenId ++ be32 o.makerAmount ++ be32 o.takerAmount ++
    be32 (o.expiration.getD 0) ++ be32 o.nonce ++ be32 o.feeRateBps ++
    be32 (sideInt o.side) ++ be32 (o.signatureType.getD 0))

/-- Domain separator of the typed data built in `buildTypedData`
(`signing.go` lines 54-59), hashed per EIP-712: same name, version,
chain id and verifying contract as the fast signer. -/
def typedDataDomainHash (keccak : List Nat → List Nat) (chainID : Nat) : List Nat :=
  keccak (keccak (strBytes eip712DomainTypeString) ++
    keccak (strBytes eip712DomainName) ++
    keccak (strBytes eip712DomainVersion) ++
    be32 chainID ++ addr32 exchangeContractAddr)

/-- `typedDataHash` (`signing.go` lines 156-166): the EIP-191 digest of
the typed data returned by `buildTypedData`. -/
def typedDataHash (keccak : List Nat → List Nat) (o : ClobOrder)
    (signerAddr : Nat) (chainID : Nat) : List Nat :=
  keccak ([0x19, 0x01] ++ typedDataDomainHash keccak chainID ++
    typedDataStructHash keccak o signerAddr)

/-- V normalization in `verifyOrderSignature` (`signing.go` lines
141-144): if the 65th byte is ≥ 27, subtract 27 (in-place on a 65-byte
slice, stated via take/append). -/
def normalizeV (sig : List Nat) : List Nat :=
  let v := sig.getD 64 0
  if 27 ≤ v then sig.take 64 ++ [v - 27] else sig

/-- `verifyOrderSignature` (`signing.go` lines 119-154). Addresses are
modelled as parsed 160-bit values (the Go code validates and parses the
hex signer address before use); `ecRecover` abstracts
`crypto.SigToPub`/`PubkeyToAddress`, returning the recovered address. -/
def verifyOrderSignature (keccak : List Nat → List Nat)
    (ecRecover : List Nat → List Nat → Option Nat)
    (o : ClobOrder) (signature : String) (signerAddr : Nat)
    (chainID : Nat) : Except String Unit :=
  if signature = "" then .error "signature is required"
  else
    let hash := typedDataHash keccak o signerAddr chainID
    match hexDecode signature with
    | none => .error "invalid signature encoding"
    | some rawSig =>
      if rawSig.length ≠ 65 then .error "invalid signature length"
      else
        match ecRecover hash (normalizeV rawSig) with
        | none => .error "signature recovery failed"
        | some recovered =>
          if recovered = signerAddr then .ok () else .error "signature mismatch"

/-- `toOptimizedOrder` (`gateway.go` lines 291-316): converts the SDK
order to the optimized signer struct; a nil expiration big-int encodes
as 0, matching `hashOrder`. -/
def toOptimizedOrder (o : ClobOrder) : SignerOrder where
  salt := o.salt
  maker := o.maker
  signer := o.signer
  taker := o.taker
  tokenId := o.tokenId
  makerAmount := o.makerAmount
  takerAmount := o.takerAmount
  expiration := o.expiration.getD 0
  nonce := o.nonce
  feeRateBps := o.feeRateBps
  side := if upperAscii o.side = "SELL" then 1 else 0
  sigType := o.signatureType.getD 0

/-! ## Signer/verifier agreement lemmas -/

set_option maxRecDepth 20000 in
/-- The `encodeType` string of the verifier's typed data is exactly the
literal the fast signer hashes. -/
lemma encodeTypeString_eq_orderTypeString :
    encodeTypeString "clobtypes.Order" clobOrderFieldDefs = orderTypeString := by
  decide

/-- The fast signer (`eip712.go`) and the verifier's typed-data pipeline
(`signing.go`) compute the same EIP-712 digest for the same order, when
the verifier is given the order's signer address. -/
lemma signDigest_eq_typedDataHash (keccak : List Nat → List Nat)
    (chainID : Nat) (o : ClobOrder) :
    signDigest keccak chainID (toOptimizedOrder o) =
      typedDataHash keccak o o.signer chainID := by
  simp only [signDigest, typedDataHash, hashOrder, structPreimage,
    typedDataStructHash, domainSeparator, typedDataDomainHash,
    toOptimizedOrder, encodeOrderFields, encodeTypeString_eq_orderTypeString,
    sideInt, List.append_assoc]

/-- `hexVal` inverts `hexDigitChar` on digit values. -/
lemma hexVal_hexDigitChar : ∀ n < 16, hexVal (hexDigitChar n) = some n := by
  decide

/-- `hexPairs` decodes a `byteHex`-encoded byte back, prepending it. -/
lemma hexPairs_byteHex (b : Nat) (hb : b < 256) (rest : List Char)
    (bs : List Nat) (h : hexPairs rest = some bs) :
    hexPairs (byteHex b ++ rest) = some (b :: bs) := by
  have hdiv : b / 16 < 16 := Nat.div_lt_of_lt_mul (by omega)
  have hmod : b % 16 < 16 := Nat.mod_lt _ (by omega)
  have hval : b / 16 * 16 + b % 16 = b := by
    rw [Nat.mul_comm]
    exact Nat.div_add_mod b 16
  have hb2 : byteHex b ++ rest =
      hexDigitChar (b / 16) :: hexDigitChar (b % 16) :: rest := rfl
  have hnil : ([] : List Char).append rest = rest := rfl
  simp only [hb2, hexPairs, hexVal_hexDigitChar _ hdiv,
    hexVal_hexDigitChar _ hmod, hnil, h, hval]

/-- `hexPairs` inverts the byte-wise hex fold of `bytesToHex`. -/
lemma hexPairs_foldr (bs : List Nat) (h : ∀ b ∈ bs, b < 256) :
    hexPairs (bs.foldr (fun b acc => byteHex b ++ acc) []) = some bs := by
  induction bs with
  | nil => rfl
  | cons b rest ih =>
    simp only [List.foldr_cons]
    exact hexPairs_byteHex b (h b (by simp)) _ _ (ih (fun x hx => h x (by simp [hx])))

/-- Decoding a hex-encoded byte string returns the bytes. -/
lemma hexDecode_bytesToHex (bs : List Nat) (h : ∀ b ∈ bs, b < 256) :
    hexDecode ("0x" ++ bytesToHex bs) = some bs := by
  have hdata : ("0x" ++ bytesToHex bs).data =
      '0' :: 'x' :: (bs.foldr (fun b acc => byteHex b ++ acc) []) := rfl
  simp only [hexDecode, hdata]
  exact hexPairs_foldr bs h

/-- A 65-byte list is its first 64 bytes plus its last byte. -/
lemma take64_append_last (l : List Nat) (hlen : l.length = 65) :
    l.take 64 ++ [l.getD 64 0] = l := by
  have h64 : 64 < l.length := by omega
  have hdrop : l.drop 64 = [l.getD 64 0] := by
    have h1 := (List.drop_eq_getElem_cons (l := l) (n := 64) h64).symm
    have h2 : l.drop 65 = [] := List.drop_eq_nil_of_le (by omega)
    have h3 : l.getD 64 0 = l[64] := by
      simp [List.getD, List.getElem?_eq_getElem h64]
    rw [h3, ← h1, h2]
  conv_rhs => rw [← List.take_append_drop 64 l]
  rw [hdrop]

/-- The verifier's V normalization undoes the signer's V adjustment on a
65-byte signature whose recovery id is below 27. -/
lemma normalizeV_adjustV (sig : List Nat) (hlen : sig.length = 65)
    (hv : sig.getD 64 0 < 27) :
    normalizeV (adjustV sig) = sig := by
  have htl : (sig.take 64).length = 64 := by simp [hlen]
  have hadj : adjustV sig = sig.take 64 ++ [sig.getD 64 0 + 27] := by
    show sig.take 64 ++
        [if sig.getD 64 0 < 27 then sig.getD 64 0 + 27 else sig.getD 64 0] = _
    rw [if_pos hv]
  have hget : (sig.take 64 ++ [sig.getD 64 0 + 27]).getD 64 0 =
      sig.getD 64 0 + 27 := by
    simp [List.getD, List.getElem?_append_right, htl]
  rw [hadj]
  simp only [normalizeV, hget, if_pos (by omega : 27 ≤ sig.getD 64 0 + 27)]
  rw [List.take_append_of_le_length (by omega), List.take_of_length_le (by omega),
    Nat.add_sub_cancel]
  exact take64_append_last sig hlen

/-! ## Claim C1 -/

/-- C1: the claim states that the signer's struct hash is keccak256 of
the ABI encoding of `ORDER_TYPEHASH` (= keccak256 of the exact type
string starting `Order(uint256 salt,...`) followed by the twelve order
fields. The code does keccak the type-hash-plus-fields layout, but its
`ORDER_TYPEHASH` is the keccak of the string starting
`clobtypes.Order(uint256 salt,...`: whenever keccak separates the two
type strings (as the real keccak256 does), the hashed preimage differs
from the one the claim prescribes, for every order. -/
theorem c1_struct_hash_type_string (keccak : List Nat → List Nat)
    (hne : keccak (strBytes orderTypeString) ≠ keccak (strBytes specOrderTypeString))
    (o : SignerOrder) :
    hashOrder keccak o = keccak (structPreimage keccak o) ∧
    structPreimage keccak o ≠ specStructPreimage keccak o := by
  refine ⟨rfl, fun hcon => hne ?_⟩
  exact List.append_cancel_right hcon

/-- A cheap stand-in hash used to instantiate hypotheses about the
abstract keccak parameter in witnesses: the input length, 32 bytes
big-endian. -/
def wKeccak (bs : List Nat) : List Nat := be32 bs.length

/-- The order of scenario S1 (spec §8), as the optimized signer struct. -/
def wSignerOrder : SignerOrder where
  salt := 123
  maker := 0xabc
  signer := 0xabc
  taker := 0
  tokenId := 999
  makerAmount := 1000000
  takerAmount := 500000
  expiration := 1800000000
  nonce := 1
  feeRateBps := 0
  side := 0
  sigType := 0

set_option maxRecDepth 20000 in
/-- Witness for C1's theorem at the concrete S1 order and `wKeccak`. -/
theorem c1_struct_hash_type_string_witness :
    structPreimage wKeccak wSignerOrder ≠ specStructPreimage wKeccak wSignerOrder :=
  (c1_struct_hash_type_string wKeccak (by decide) wSignerOrder).2

/-! ## Claim C2 -/

/-- C2: for every signable order signed by the gateway's signer, the
verifier accepts: the fast signer's digest equals the typed-data
verifier's digest, the hex/V-adjustment encode-decode round-trips, and
the recovered address equals the signer's address. `ecSign`/`ecRecover`
abstract secp256k1; the hypotheses state the standard ECDSA recovery
round-trip for the gateway key whose address is `o.signer`, a 65-byte
signature with recovery id below 27. -/
theorem c2_sign_then_verify (keccak : List Nat → List Nat)
    (ecSign : List Nat → List Nat) (ecRecover : List Nat → List Nat → Option Nat)
    (o : ClobOrder) (chainID : Nat)
    (hlen : (ecSign (signDigest keccak chainID (toOptimizedOrder o))).length = 65)
    (hv : (ecSign (signDigest keccak chainID (toOptimizedOrder o))).getD 64 0 < 27)
    (hbytes : ∀ b ∈ ecSign (signDigest keccak chainID (toOptimizedOrder o)), b < 256)
    (hrec : ecRecover (signDigest keccak chainID (toOptimizedOrder o))
        (ecSign (signDigest keccak chainID (toOptimizedOrder o))) = some o.signer) :
    verifyOrderSignature keccak ecRecover o
      (signOrder keccak ecSign chainID (toOptimizedOrder o)) o.signer chainID =
      .ok () := by
  set s := ecSign (signDigest keccak chainID (toOptimizedOrder o)) with hs
  have hadj : adjustV s = s.take 64 ++ [s.getD 64 0 + 27] := by
    show s.take 64 ++
        [if s.getD 64 0 < 27 then s.getD 64 0 + 27 else s.getD 64 0] = _
    rw [if_pos hv]
  have hadjb : ∀ b ∈ adjustV s, b < 256 := by
    intro b hb
    rw [hadj] at hb
    rcases List.mem_append.mp hb with h1 | h2
    · exact hbytes b (List.take_subset _ _ h1)
    · have hb2 : b = s.getD 64 0 + 27 := List.mem_singleton.mp h2
      omega
  have hadjlen : (adjustV s).length = 65 := by
    rw [hadj]
    simp [hlen]
  have hsigstr : signOrder keccak ecSign chainID (toOptimizedOrder o) =
      "0x" ++ bytesToHex (adjustV s) := rfl
  have hne : ("0x" ++ bytesToHex (adjustV s)) ≠ "" := by
    intro hcontra
    have h0 : ('0' :: 'x' :: (bytesToHex (adjustV s)).data) = ([] : List Char) :=
      congrArg String.data hcontra
    exact List.noConfusion h0
  have hdec : hexDecode ("0x" ++ bytesToHex (adjustV s)) = some (adjustV s) :=
    hexDecode_bytesToHex _ hadjb
  rw [hsigstr]
  simp only [verifyOrderSignature, if_neg hne, hdec]
  rw [if_neg (by simp [hadjlen]), normalizeV_adjustV s hlen hv,
    ← signDigest_eq_typedDataHash, hrec]
  simp

/-- Witness fixture: the S1 order as the SDK order type. -/
def wClobOrder : ClobOrder where
  salt := 123
  maker := 0xabc
  signer := 0xabc
  taker := 0
  tokenId := 999
  makerAmount := 1000000
  takerAmount := 500000
  expiration := some 1800000000
  nonce := 1
  feeRateBps := 0
  side := "BUY"
  signatureType := some 0

/-- Witness fixture: a constant stand-in signing function whose outputs
are 65 bytes with recovery id 0. -/
def wSign (_ : List Nat) : List Nat := List.replicate 64 1 ++ [0]

/-- Witness fixture: a stand-in recovery function returning the fixture
signer address. -/
def wRecover (_ _ : List Nat) : Option Nat := some 0xabc

/-- Witness for C2's theorem at the concrete S1 order together with the
stand-in crypto fixtures satisfying its hypotheses. -/
theorem c2_sign_then_verify_witness :
    verifyOrderSignature wKeccak wRecover wClobOrder
      (signOrder wKeccak wSign 137 (toOptimizedOrder wClobOrder))
      wClobOrder.signer 137 = .ok () :=
  c2_sign_then_verify wKeccak wSign wRecover wClobOrder 137
    (by decide) (by decide) (by decide) rfl

/-! ## Nonce manager, from `internal/manager/nonce.go` -/

/-- Exchange-nonce cache of the `NonceManager` (maker address → cached
exchange nonce), as an association list with map-overwrite semantics. -/
structure NonceState where
  exchangeNonces : List (Nat × Nat)
deriving DecidableEq

/-- Lookup in the exchange-nonce cache. -/
def NonceState.lookup (st : NonceState) (addr : Nat) : Option Nat :=
  (st.exchangeNonces.find? (fun p => p.1 == addr)).map (fun p => p.2)

/-- Map assignment (overwrite) in the exchange-nonce cache. -/
def NonceState.assign (st : NonceState) (addr v : Nat) : NonceState :=
  ⟨(addr, v) :: st.exchangeNonces.filter (fun p => ¬ p.1 == addr)⟩

/-- `SyncExchangeNonce` (`nonce.go` lines 106-156). The function takes
the true on-chain nonce mapping `chainNonces` as a parameter so the claim
can be stated, but — exactly as in the source, where the whole
`eth_call` construction is commented out — the body never consults it: it
stores and returns the constant 0. -/
def syncExchangeNonce (chainNonces : Nat → Nat) (st : NonceState) (addr : Nat) :
    Nat × NonceState :=
  let _ := chainNonces
  (0, st.assign addr 0)

/-- `GetExchangeNonce` (`nonce.go` lines 94-103): cached value if
present, else `SyncExchangeNonce`. -/
def getExchangeNonce (chainNonces : Nat → Nat) (st : NonceState) (addr : Nat) :
    Nat × NonceState :=
  match st.lookup addr with
  | some cached => (cached, st)
  | none => syncExchangeNonce chainNonces st addr

/-- `InvalidateExchangeNonce` (`nonce.go` lines 160-169): increments the
cached nonce if present. -/
def invalidateExchangeNonce (st : NonceState) (addr : Nat) : NonceState :=
  match st.lookup addr with
  | some v => st.assign addr (v + 1)
  | none => st

/-! ## Claim C3 -/

/-- C3: the claim states `SyncExchangeNonce` reads the exchange
contract's `nonces(address)` slot via `eth_call` and returns the on-chain
value, not a constant. The code's `eth_call` is commented out: for every
on-chain state, every cache state and every maker the function returns 0
and caches 0 — in particular it disagrees with any chain whose nonce for
the maker is nonzero. -/
theorem c3_sync_returns_constant_zero :
    (∀ (chainNonces : Nat → Nat) (st : NonceState) (addr : Nat),
      (syncExchangeNonce chainNonces st addr).1 = 0 ∧
      (syncExchangeNonce chainNonces st addr).2.lookup addr = some 0) ∧
    (syncExchangeNonce (fun _ => 7) ⟨[]⟩ 0xabc).1 ≠ (fun (_ : Nat) => 7) 0xabc := by
  refine ⟨fun chainNonces st addr => ⟨rfl, ?_⟩, by decide⟩
  simp [syncExchangeNonce, NonceState.assign, NonceState.lookup, List.find?]

/-! ## Exact decimal arithmetic (shopspring/decimal, external library)

`shopspring/decimal` values are exact rationals of the form
`value / 10^exp`; the library compares and combines them by value. They
are modelled as explicit integer fractions with value-level comparison
functions (`equal`, `lt`, ...), which — unlike Mathlib's `ℚ`, whose
operations do not reduce in the kernel — evaluate on concrete inputs.
Go `float64` request fields enter this arithmetic through
`decimal.NewFromFloat`; the claims settled here never depend on
binary-float rounding, so those values are modelled exactly as well. -/

structure Dec where
  num : Int
  den : Nat
deriving DecidableEq

/-- Embed an integer. -/
def Dec.ofInt (n : Int) : Dec := ⟨n, 1⟩

/-- Value equality `a.Equal(b)`: cross-multiplication. -/
def Dec.equal (a b : Dec) : Bool := a.num * b.den == b.num * a.den

/-- Value order `a.LessThan(b)` (denominators produced by the gateway
are positive). -/
def Dec.lt (a b : Dec) : Bool := a.num * b.den < b.num * a.den

/-- `a.GreaterThan(b)`. -/
def Dec.gt (a b : Dec) : Bool := Dec.lt b a

/-- Value order `≤`. -/
def Dec.le (a b : Dec) : Bool := a.num * b.den ≤ b.num * a.den

/-- `a.Add(b)`. -/
def Dec.add (a b : Dec) : Dec := ⟨a.num * b.den + b.num * a.den, a.den * b.den⟩

/-- `a.Sub(b)`. -/
def Dec.sub (a b : Dec) : Dec := ⟨a.num * b.den - b.num * a.den, a.den * b.den⟩

/-- `a.Mul(b)`. -/
def Dec.mul (a b : Dec) : Dec := ⟨a.num * b.num, a.den * b.den⟩

/-- `a.Div(b)` for nonzero `b` (the gateway divides only by nonzero
amounts); the divisor's sign moves to the numerator. -/
def Dec.div (a b : Dec) : Dec :=
  ⟨a.num * b.den * (if b.num < 0 then -1 else 1), a.den * b.num.natAbs⟩

/-- `a.IsZero()`. -/
def Dec.isZero (a : Dec) : Bool := a.num == 0

/-! ## Decimal parsing

`decimal.NewFromString` is modelled on plain decimal numerals (optional
sign, digits, at most one decimal point, at least one digit), the only
shapes the feed and the gateway produce; exponent forms are rejected by
the model and unused by the callers. -/

/-- Value of a decimal digit character. -/
def digitVal (c : Char) : Option Nat :=
  if 48 ≤ c.toNat ∧ c.toNat ≤ 57 then some (c.toNat - 48) else none

/-- Fold a digit sequence into a natural number; fails on a non-digit. -/
def digitsVal (cs : List Char) : Option Nat :=
  cs.foldl (fun acc c =>
    match acc, digitVal c with
    | some a, some d => some (a * 10 + d)
    | _, _ => none) (some 0)

/-- Parse `[sign] digits [. digits]` into an exact decimal. -/
def parseDecimal (s : String) : Option Dec :=
  match s.data with
  | [] => none
  | cs =>
    let (neg, body) :=
      match cs with
      | '-' :: t => (true, t)
      | '+' :: t => (false, t)
      | t => (false, t)
    let build (v : Int) (d : Nat) : Option Dec :=
      some ⟨if neg then -v else v, d⟩
    match body.splitOn '.' with
    | [ip] =>
      if ip.isEmpty then none
      else match digitsVal ip with
        | some n => build n 1
        | none => none
    | [ip, fp] =>
      if ip.isEmpty ∧ fp.isEmpty then none
      else match digitsVal ip, digitsVal fp with
        | some n, some f => build (n * 10 ^ fp.length + f) (10 ^ fp.length)
        | _, _ => none
    | _ => none

/-! ## Orderbook, from `internal/market/orderbook.go` (src/unnamed/part_010) -/

/-- One price level: arbitrary-precision decimals. -/
structure Level where
  price : Dec
  size : Dec
deriving DecidableEq

/-- The in-memory book: bids sorted high→low, asks low→high, and the
last-update time (modelled in seconds; `time.Now()` is passed in as
`now` by the pure embedding). The per-book RW lock serializes the Go
methods, so they are modelled as plain state transformers. -/
structure Orderbook where
  bids : List Level
  asks : List Level
  lastUpdated : Nat
deriving DecidableEq

/-- Insertion into a `le`-sorted list, used to model Go `sort.Slice`
re-sorting after an insert; on a sorted list of distinct prices this is
the unique sorted result `sort.Slice` produces. -/
def insertSorted (le : Level → Level → Bool) (x : Level) : List Level → List Level
  | [] => [x]
  | y :: ys => if le x y then x :: y :: ys else y :: insertSorted le x ys

/-- Full sort by `le` (insertion sort), modelling `sort.Slice`. -/
def sortLevels (le : Level → Level → Bool) : List Level → List Level
  | [] => []
  | x :: xs => insertSorted le x (sortLevels le xs)

/-- `updateLevel` (part_010 lines 68-110): find the level with equal
price (`Price.Equal`); delete it on size 0, overwrite its size
otherwise; if absent and size is nonzero, insert and re-sort (bids by
descending price, asks by ascending price). An absent level with size 0
is a no-op. -/
def updateLevel (levels : List Level) (price size : Dec) (descending : Bool) :
    List Level :=
  match levels.findIdx? (fun l => l.price.equal price) with
  | some i =>
    if size.isZero then levels.eraseIdx i
    else levels.set i ⟨price, size⟩
  | none =>
    if size.isZero then levels
    else if descending then
      sortLevels (fun a b => b.price.lt a.price) (levels ++ [⟨price, size⟩])
    else
      sortLevels (fun a b => a.price.lt b.price) (levels ++ [⟨price, size⟩])

/-- `Orderbook.Update` (part_010 lines 46-66): parse price then size
(returning the parse error without mutating on failure), dispatch on
`side == "BUY"` — any other side string goes to the asks — then refresh
`LastUpdated` unconditionally. -/
def Orderbook.update (ob : Orderbook) (side priceStr sizeStr : String)
    (now : Nat) : Option Orderbook :=
  match parseDecimal priceStr with
  | none => none
  | some price =>
    match parseDecimal sizeStr with
    | none => none
    | some size =>
      if side = "BUY" then
        some { ob with bids := updateLevel ob.bids price size true, lastUpdated := now }
      else
        some { ob with asks := updateLevel ob.asks price size false, lastUpdated := now }

/-- `Orderbook.Snapshot` (part_010 lines 35-42): replace both ladders
and refresh `LastUpdated`. -/
def Orderbook.snapshot (ob : Orderbook) (bids asks : List Level) (now : Nat) :
    Orderbook :=
  { ob with bids := bids, asks := asks, lastUpdated := now }

/-- `Orderbook.GetCopy` (part_010 lines 113-122): the two ladders (the
defensive copying is identity in a pure model). -/
def Orderbook.getCopy (ob : Orderbook) : List Level × List Level :=
  (ob.bids, ob.asks)

/-! ## Market feed message handling, from `internal/market/service.go` -/

/-- A raw price level as received on the wire. -/
structure PriceLevelRaw where
  price : String
  size : String
deriving DecidableEq

/-- `WSMessage` (`service.go` lines 179-185); the code's own comment on
`Hash` reads: if present, it's a snapshot. -/
structure WSMessage where
  eventType : String
  market : String
  bids : List PriceLevelRaw
  asks : List PriceLevelRaw
  hash : String
deriving DecidableEq

/-- `processBookMessage` (`service.go` lines 226-250), applied to the
book found for `msg.Market`: every bid level and every ask level is
passed to `Orderbook.Update` (parse failures leave the book unchanged;
the error is discarded by the caller). The `hash` field is never read. -/
def processBookMessage (ob : Orderbook) (msg : WSMessage) (now : Nat) :
    Orderbook :=
  let afterBids := msg.bids.foldl
    (fun b lvl => (b.update "BUY" lvl.price lvl.size now).getD b) ob
  msg.asks.foldl
    (fun b lvl => (b.update "SELL" lvl.price lvl.size now).getD b) afterBids

/-! ## Claim C4 -/

/-- A book that already holds a bid level at price 0.5. -/
def c4Book : Orderbook := ⟨[⟨⟨1, 2⟩, ⟨10, 1⟩⟩], [], 0⟩

/-- A snapshot message (nonempty `hash`) for that book. -/
def c4SnapMsg : WSMessage :=
  ⟨"book", "T", [⟨"0.64", "100"⟩], [⟨"0.66", "80"⟩], "abc"⟩

/-- C4: the claim states a message carrying a `hash` is a snapshot whose
ladders replace the book's entire state. In the code `processBookMessage`
never reads the `hash` field: every message, snapshot or not, is applied
as a per-level delta (first conjunct — the result is the same with the
hash erased). On a book holding a bid at 0.5, the snapshot message
`{hash: abc, bids: [(0.64,100)], asks: [(0.66,80)]}` therefore leaves
the stale 0.5 level in place, while the claimed replacement (the unused
`Orderbook.Snapshot`) would drop it (second and third conjuncts). The
delta half of the claim (hash absent, size 0 deletes) is what the code
does for every message. -/
theorem c4_snapshot_hash_ignored :
    (∀ (ob : Orderbook) (msg : WSMessage) (now : Nat),
      processBookMessage ob msg now =
        processBookMessage ob { msg with hash := "" } now) ∧
    (Level.mk ⟨1, 2⟩ ⟨10, 1⟩) ∈ (processBookMessage c4Book c4SnapMsg 5).bids ∧
    (Level.mk ⟨1, 2⟩ ⟨10, 1⟩) ∉
      (c4Book.snapshot [⟨⟨64, 100⟩, ⟨100, 1⟩⟩] [⟨⟨66, 100⟩, ⟨80, 1⟩⟩] 5).bids := by
  refine ⟨fun ob msg now => rfl, by decide, by decide⟩

/-! ## Claim C10 -/

/-- C10: `Orderbook.Update` validates nothing about the side string: any
side other than exactly BUY — lower-case, misspelled or empty included —
is applied to the asks ladder, the bids are untouched, and
`last_updated` is refreshed whenever both price and size parse, even
when the update is a no-op on the ladders. -/
theorem c10_update_side_unvalidated (side priceStr sizeStr : String)
    (ob : Orderbook) (now : Nat) (price size : Dec)
    (hp : parseDecimal priceStr = some price)
    (hs : parseDecimal sizeStr = some size)
    (hside : side ≠ "BUY") :
    ob.update side priceStr sizeStr now =
      some { bids := ob.bids, asks := updateLevel ob.asks price size false,
             lastUpdated := now } := by
  simp [Orderbook.update, hp, hs, hside]

/-- Witness for C10 at side buy (lower-case), price 0.5, size 0 on a
book with no ask at 0.5: the removal is a no-op on the ladders, the
update still lands on the asks side and still refreshes `last_updated`. -/
theorem c10_update_side_unvalidated_witness :
    Orderbook.update ⟨[⟨⟨3, 4⟩, ⟨2, 1⟩⟩], [], 0⟩ "buy" "0.5" "0" 7 =
      some ⟨[⟨⟨3, 4⟩, ⟨2, 1⟩⟩], [], 7⟩ := by
  rw [c10_update_side_unvalidated "buy" "0.5" "0" ⟨[⟨⟨3, 4⟩, ⟨2, 1⟩⟩], [], 0⟩ 7
    ⟨5, 10⟩ ⟨0, 1⟩ (by decide) (by decide) (by decide)]
  decide

/-! ## Idempotency middleware, from `internal/middleware/idempotency.go` -/

/-- `IdempotencyRecord` (`idempotency.go` lines 14-19); the body is the
captured response bytes. -/
structure IdempotencyRecord where
  status : Nat
  body : List Nat
  createdAt : Nat
  processing : Bool
deriving DecidableEq

/-- The in-memory store's map, as an association list with
map-overwrite semantics (key: `tenantID:idempotencyKey`). -/
abbrev IdemStore := List (String × IdempotencyRecord)

/-- Map lookup. -/
def storeLookup (st : IdemStore) (k : String) : Option IdempotencyRecord :=
  (st.find? (fun p => p.1 == k)).map (fun p => p.2)

/-- Map assignment (overwrite). -/
def storeAssign (st : IdemStore) (k : String) (rec : IdempotencyRecord) :
    IdemStore :=
  (k, rec) :: st.filter (fun p => ¬ p.1 == k)

/-- `InMemIdempotencyStore.GetOrLock` (`idempotency.go` lines 42-56):
atomically return an existing record as a hit, else insert a processing
lock and report the caller as executor. -/
def getOrLock (st : IdemStore) (k : String) (now : Nat) :
    (Option IdempotencyRecord × Bool) × IdemStore :=
  match storeLookup st k with
  | some rec => ((some rec, true), st)
  | none => ((none, false), storeAssign st k ⟨0, [], now, true⟩)

/-- `InMemIdempotencyStore.Save` (`idempotency.go` lines 58-68). -/
def storeSave (st : IdemStore) (k : String) (status : Nat) (body : List Nat)
    (now : Nat) : IdemStore :=
  storeAssign st k ⟨status, body, now, false⟩

/-- `InMemIdempotencyStore.Unlock` (`idempotency.go` lines 70-74). -/
def storeUnlock (st : IdemStore) (k : String) : IdemStore :=
  st.filter (fun p => ¬ p.1 == k)

/-- How the middleware writes the response: a gin JSON error object
(`c.JSON(status, gin.H with an error message)`), a verbatim replay of
recorded bytes with an explicit content type (`c.Data`), or the bytes
the downstream handler wrote. -/
inductive ResponseBody
  | errJson (msg : String)
  | replayed (contentType : String) (bytes : List Nat)
  | fromHandler (bytes : List Nat)
deriving DecidableEq

/-- Outcome of one pass through the idempotency middleware. -/
structure MWResult where
  status : Nat
  body : ResponseBody
  store : IdemStore
  handlerInvoked : Bool
deriving DecidableEq

/-- `IdempotencyMiddleware` (`idempotency.go` lines 77-129) for an
authenticated request: no header → pass through; on a hit, 409 while
processing, else verbatim replay of status and recorded bytes, aborting
the chain; on a miss, run the handler through the capture writer, then
save results below 500 and unlock (delete) otherwise. -/
def idempotencyMiddleware (st : IdemStore) (tenantId idemKey : String)
    (now : Nat) (handler : Unit → Nat × List Nat) : MWResult :=
  if idemKey = "" then
    let r := handler ()
    ⟨r.1, .fromHandler r.2, st, true⟩
  else
    let fullKey := tenantId ++ ":" ++ idemKey
    match getOrLock st fullKey now with
    | ((some rec, _), st') =>
      if rec.processing then
        ⟨409, .errJson "request in progress", st', false⟩
      else
        ⟨rec.status, .replayed "application/json; charset=utf-8" rec.body,
          st', false⟩
    | ((none, _), st') =>
      let r := handler ()
      if r.1 < 500 then
        ⟨r.1, .fromHandler r.2, storeSave st' fullKey r.1 r.2 now, true⟩
      else
        ⟨r.1, .fromHandler r.2, storeUnlock st' fullKey, true⟩

/-! ## Claim C5 -/

/-- C5: when the middleware observes an existing record for
`tenant_id:client_key`, the handler chain is aborted without invoking the
handler (so the exchange is not called again); a still-processing record
yields 409 Conflict with message request in progress, and a completed
record is replayed with its recorded status and verbatim body. -/
theorem c5_idempotency_hit_replay (st : IdemStore) (tenantId idemKey : String)
    (now : Nat) (handler : Unit → Nat × List Nat) (rec : IdempotencyRecord)
    (hk : idemKey ≠ "")
    (hrec : storeLookup st (tenantId ++ ":" ++ idemKey) = some rec) :
    (idempotencyMiddleware st tenantId idemKey now handler).handlerInvoked =
        false ∧
    (rec.processing = true →
      (idempotencyMiddleware st tenantId idemKey now handler).status = 409 ∧
      (idempotencyMiddleware st tenantId idemKey now handler).body =
        .errJson "request in progress") ∧
    (rec.processing = false →
      (idempotencyMiddleware st tenantId idemKey now handler).status =
          rec.status ∧
      (idempotencyMiddleware st tenantId idemKey now handler).body =
        .replayed "application/json; charset=utf-8" rec.body) := by
  simp only [idempotencyMiddleware, if_neg hk, getOrLock, hrec]
  refine ⟨?_, ?_, ?_⟩
  · cases h : rec.processing <;> simp [h]
  · intro h
    simp [h]
  · intro h
    simp [h]

/-- Witness for C5 at a concrete store holding a completed record. -/
theorem c5_idempotency_hit_replay_witness :
    (idempotencyMiddleware [("t1:k1", ⟨200, [123], 3, false⟩)] "t1" "k1" 9
        (fun _ => (200, [9, 9]))).handlerInvoked = false ∧
    (idempotencyMiddleware [("t1:k1", ⟨200, [123], 3, false⟩)] "t1" "k1" 9
        (fun _ => (200, [9, 9]))).status = 200 ∧
    (idempotencyMiddleware [("t1:k1", ⟨200, [123], 3, false⟩)] "t1" "k1" 9
        (fun _ => (200, [9, 9]))).body =
      .replayed "application/json; charset=utf-8" [123] := by
  have h := c5_idempotency_hit_replay [("t1:k1", ⟨200, [123], 3, false⟩)]
    "t1" "k1" 9 (fun _ => (200, [9, 9])) ⟨200, [123], 3, false⟩
    (by decide) (by decide)
  exact ⟨h.1, (h.2.2 rfl).1, (h.2.2 rfl).2⟩

/-! ## Fixed-point formatting (Go `fmt %.4f` / `%.2f`)

Modelled exactly for the values the theorems evaluate (short terminating
decimal expansions); the model rounds ties up where Go rounds ties to
even, a difference that can only show at exact half-ulp ties. -/

/-- Left-pad a numeral with zeros to width `k`. -/
def padZeros (s : String) (k : Nat) : String :=
  ⟨List.replicate (k - s.length) '0'⟩ ++ s

/-- `%.kf` of a nonnegative value. -/
def fmtFixedNonneg (q : Dec) (k : Nat) : String :=
  let scaled := (q.num.toNat * 10 ^ k * 2 + q.den) / (2 * q.den)
  toString (scaled / 10 ^ k) ++ "." ++ padZeros (toString (scaled % 10 ^ k)) k

/-- `%.kf` (sign handled separately). -/
def fmtFixed (q : Dec) (k : Nat) : String :=
  if q.num < 0 then "-" ++ fmtFixedNonneg ⟨-q.num, q.den⟩ k
  else fmtFixedNonneg q k

/-! ## Risk engine, from `internal/service/risk.go` (src/unnamed/part_005) -/

/-- `RiskConfig` (`model/tenant.go`): float64 limits as exact decimals. -/
structure RiskConfig where
  maxOrderValue : Dec
  maxDailyValue : Dec
  maxDailyOrders : Int
  maxSlippage : Dec
  restrictedMkts : List String
  allowUnverifiedSignatures : Bool
deriving DecidableEq

/-- The reason tag a risk rejection carries (the Prometheus counter
label in the source; `usageUnavailable` is the untagged hard reject when
the usage store read fails). -/
inductive RiskReason
  | priceBounds
  | invalidSize
  | maxValue
  | staleData
  | slippage
  | restrictedMarket
  | dailyVolume
  | dailyOrders
  | usageUnavailable
deriving DecidableEq

/-- A risk rejection: reason tag plus the formatted error message. -/
structure RiskReject where
  reason : RiskReason
  msg : String
deriving DecidableEq

/-- `clobtypes.SignableOrder` as used by the gateway: the SDK order (a
nullable pointer), the order type string and the post-only flag. -/
structure SignableOrder where
  order : Option ClobOrder
  orderType : String
  postOnly : Bool
deriving DecidableEq

/-- Per-request L2 credential override (`req.L2`). -/
structure L2Override where
  apiKey : String
  apiSecret : String
  apiPassphrase : String
deriving DecidableEq

/-- The slice of `model.OrderRequest` the risk engine and the gateway
read. Numeric price/size are the request's float64 values, modelled
exactly. -/
structure OrderRequest where
  tokenID : String
  price : Dec
  size : Dec
  side : String
  orderType : String
  expiration : Nat
  postOnly : Option Bool
  signatureType : Option Nat
  signature : String
  signer : String
  signable : Option SignableOrder
  l2 : Option L2Override
deriving DecidableEq

/-- The price-deviation block of `CheckOrder` (part_005 lines 52-90),
factored out verbatim: guarded by `MaxSlippage > 0`, a non-nil market
service and a non-nil book (both folded into `book = some b`); stale
books reject with `stale_data`; otherwise the BUY side is compared
against the best ask and every other side against the best bid, an
empty opposite ladder passing. -/
def slippageSection (cfg : RiskConfig) (book : Option Orderbook) (now : Nat)
    (req : OrderRequest) : Option RiskReject :=
  if (Dec.ofInt 0).lt cfg.maxSlippage then
    match book with
    | some b =>
      if 10 < now - b.lastUpdated then
        some ⟨.staleData,
          "risk reject: market data stale (>10s), cannot verify price safely"⟩
      else
        let copies := b.getCopy
        if req.side = "BUY" then
          match copies.2 with
          | a :: _ =>
            let maxPrice := a.price.mul ((Dec.ofInt 1).add cfg.maxSlippage)
            if req.price.gt maxPrice then
              some ⟨.slippage, "risk reject: buy price " ++
                fmtFixed req.price 4 ++ " deviates too much from best ask " ++
                fmtFixed a.price 4 ++ " (limit: " ++ fmtFixed maxPrice 4 ++ ")"⟩
            else none
          | [] => none
        else
          match copies.1 with
          | bb :: _ =>
            let minPrice := bb.price.mul ((Dec.ofInt 1).sub cfg.maxSlippage)
            if req.price.lt minPrice then
              some ⟨.slippage, "risk reject: sell price " ++
                fmtFixed req.price 4 ++ " deviates too much from best bid " ++
                fmtFixed bb.price 4 ++ " (limit: " ++ fmtFixed minPrice 4 ++ ")"⟩
            else none
          | [] => none
    | none => none
  else none

/-- The daily-limit block of `CheckOrder` (part_005 lines 100-117),
factored out verbatim: one usage read guarded by either limit being
configured, a read failure rejecting hard, then the volume and the
order-count comparisons in order. -/
def dailySection (cfg : RiskConfig) (usage : Except String (Int × Dec))
    (req : OrderRequest) : Option RiskReject :=
  let orderVal := req.price.mul req.size
  if (Dec.ofInt 0).lt cfg.maxDailyValue || 0 < cfg.maxDailyOrders then
    match usage with
    | .error e => some ⟨.usageUnavailable, "risk check failed: " ++ e⟩
    | .ok u =>
      if (Dec.ofInt 0).lt cfg.maxDailyValue &&
          cfg.maxDailyValue.lt (u.2.add orderVal) then
        some ⟨.dailyVolume,
          "risk reject: daily volume limit exceeded (curr: " ++
          fmtFixed u.2 2 ++ ", new: " ++ fmtFixed orderVal 2 ++
          ", max: " ++ fmtFixed cfg.maxDailyValue 2 ++ ")"⟩
      else if 0 < cfg.maxDailyOrders && cfg.maxDailyOrders < u.1 + 1 then
        some ⟨.dailyOrders,
          "risk reject: daily order limit exceeded (curr: " ++
          toString u.1 ++ ", max: " ++ toString cfg.maxDailyOrders ++ ")"⟩
      else none
  else none

/-- `RiskEngine.CheckOrder` (part_005 lines 30-120), transcribed with
its exact early-return control flow (the two inner blocks are the
factored sections above). `book` is `none` when the market service is
nil or has no book for the token; `now` is the wall clock in seconds;
`usage` is the result of the `GetDailyUsage` read. -/
def checkOrder (cfg : RiskConfig) (book : Option Orderbook) (now : Nat)
    (usage : Except String (Int × Dec)) (req : OrderRequest) :
    Option RiskReject :=
  if req.price.le (Dec.ofInt 0) || (Dec.ofInt 1).le req.price then
    some ⟨.priceBounds,
      "risk reject: price " ++ fmtFixed req.price 4 ++ " out of bounds (0-1)"⟩
  else if req.size.le (Dec.ofInt 0) then
    some ⟨.invalidSize, "risk reject: size must be positive"⟩
  else
    let orderVal := req.price.mul req.size
    if (Dec.ofInt 0).lt cfg.maxOrderValue && cfg.maxOrderValue.lt orderVal then
      some ⟨.maxValue, "risk reject: order value " ++ fmtFixed orderVal 2 ++
        " exceeds limit " ++ fmtFixed cfg.maxOrderValue 2⟩
    else
      match slippageSection cfg book now req with
      | some r => some r
      | none =>
        if req.tokenID ∈ cfg.restrictedMkts then
          some ⟨.restrictedMarket,
            "risk reject: market " ++ req.tokenID ++ " is restricted"⟩
        else dailySection cfg usage req

/-- `RiskEngine.PostOrderHook` (part_005 lines 123-128): the usage-store
increment it issues, as a delta. -/
def postOrderHookDelta (req : OrderRequest) : Int × Dec :=
  (1, req.price.mul req.size)

/-! ## Claim C7: the spec's ordered check list

The following definitions restate §4.6 of the specification: each check
is an independent total function of the inputs, and the engine is their
first failure in the spec's fixed order. They are compared against the
transcription `checkOrder` above. -/

/-- Spec check 1, `price_bounds`: pass iff `0 < price < 1`, i.e. fail iff
`price ≤ 0` or `1 ≤ price`. -/
def specPriceBounds (req : OrderRequest) : Option RiskReason :=
  if req.price.le (Dec.ofInt 0) || (Dec.ofInt 1).le req.price then
    some .priceBounds
  else none

/-- Spec check 2, `invalid_size`: pass iff `size > 0`, i.e. fail iff
`size ≤ 0`. -/
def specInvalidSize (req : OrderRequest) : Option RiskReason :=
  if req.size.le (Dec.ofInt 0) then some .invalidSize else none

/-- Spec check 3, `max_value`: pass iff `price*size ≤ max_order_value`
(0 disables), i.e. fail iff the limit is positive and exceeded. -/
def specMaxValue (cfg : RiskConfig) (req : OrderRequest) : Option RiskReason :=
  if (Dec.ofInt 0).lt cfg.maxOrderValue &&
      cfg.maxOrderValue.lt (req.price.mul req.size) then some .maxValue
  else none

/-- Spec check 4, `slippage` with `stale_data`: guarded by
`max_slippage > 0` and a book for the token; a book older than 10 s
fails with `stale_data`, otherwise BUY must satisfy
`price ≤ best_ask*(1+max_slippage)` and SELL
`price ≥ best_bid*(1−max_slippage)` (an empty opposite ladder passes). -/
def specSlippage (cfg : RiskConfig) (book : Option Orderbook) (now : Nat)
    (req : OrderRequest) : Option RiskReason :=
  if (Dec.ofInt 0).lt cfg.maxSlippage then
    match book with
    | none => none
    | some b =>
      if now - b.lastUpdated ≤ 10 then
        if req.side = "BUY" then
          match b.asks with
          | a :: _ =>
            if req.price.le (a.price.mul ((Dec.ofInt 1).add cfg.maxSlippage))
            then none else some .slippage
          | [] => none
        else
          match b.bids with
          | bb :: _ =>
            if (bb.price.mul ((Dec.ofInt 1).sub cfg.maxSlippage)).le req.price
            then none else some .slippage
          | [] => none
      else some .staleData
  else none

/-- Spec check 5, `restricted_market`. -/
def specRestricted (cfg : RiskConfig) (req : OrderRequest) : Option RiskReason :=
  if req.tokenID ∈ cfg.restrictedMkts then some .restrictedMarket else none

/-- Spec check 6, `daily_volume_limit` (usage-store failure is a hard
fail-closed reject). -/
def specDailyVolume (cfg : RiskConfig) (usage : Except String (Int × Dec))
    (req : OrderRequest) : Option RiskReason :=
  if (Dec.ofInt 0).lt cfg.maxDailyValue then
    match usage with
    | .error _ => some .usageUnavailable
    | .ok u =>
      if (u.2.add (req.price.mul req.size)).le cfg.maxDailyValue then none
      else some .dailyVolume
  else none

/-- Spec check 7, `daily_order_limit`. -/
def specDailyOrders (cfg : RiskConfig) (usage : Except String (Int × Dec)) :
    Option RiskReason :=
  if 0 < cfg.maxDailyOrders then
    match usage with
    | .error _ => some .usageUnavailable
    | .ok u => if u.1 + 1 ≤ cfg.maxDailyOrders then none else some .dailyOrders
  else none

/-- First failing check of a list evaluated in order. -/
def firstSome : List (Option RiskReason) → Option RiskReason
  | [] => none
  | some r :: _ => some r
  | none :: rest => firstSome rest

/-- The engine as the spec describes it: the checks in the fixed order
`price_bounds, invalid_size, max_value, slippage, restricted_market,
daily_volume_limit, daily_order_limit`, first failure wins. -/
def checkOrderSpec (cfg : RiskConfig) (book : Option Orderbook) (now : Nat)
    (usage : Except String (Int × Dec)) (req : OrderRequest) :
    Option RiskReason :=
  firstSome [specPriceBounds req, specInvalidSize req, specMaxValue cfg req,
    specSlippage cfg book now req, specRestricted cfg req,
    specDailyVolume cfg usage req, specDailyOrders cfg usage]

/-- Strict and non-strict Dec value comparison are mutual negations. -/
lemma Dec.lt_eq_not_le (a b : Dec) : a.lt b = !(b.le a) := by
  apply Bool.coe_iff_coe.mp
  unfold Dec.lt Dec.le
  simp only [decide_eq_true_eq, Bool.not_eq_true', decide_eq_false_iff_not]
  omega

/-- The factored slippage block carries exactly the spec's check-4
reasons. -/
lemma slippageSection_spec (cfg : RiskConfig) (book : Option Orderbook)
    (now : Nat) (req : OrderRequest) :
    (slippageSection cfg book now req).map RiskReject.reason =
      specSlippage cfg book now req := by
  cases book with
  | none =>
    unfold slippageSection specSlippage
    by_cases hs : ((Dec.ofInt 0).lt cfg.maxSlippage) = true
    · rw [if_pos hs, if_pos hs]
      rfl
    · rw [if_neg hs, if_neg hs]
      rfl
  | some b =>
    obtain ⟨bbids, basks, blu⟩ := b
    unfold slippageSection specSlippage
    dsimp only [Orderbook.getCopy]
    by_cases hs : ((Dec.ofInt 0).lt cfg.maxSlippage) = true
    · conv_lhs => rw [if_pos hs]
      conv_rhs => rw [if_pos hs]
      by_cases hage : 10 < now - blu
      · conv_lhs => rw [if_pos hage]
        conv_rhs => rw [if_neg (show ¬(now - blu ≤ 10) by omega)]
        rfl
      · conv_lhs => rw [if_neg hage]
        conv_rhs => rw [if_pos (show now - blu ≤ 10 by omega)]
        by_cases hside : req.side = "BUY"
        · conv_lhs => rw [if_pos hside]
          conv_rhs => rw [if_pos hside]
          cases basks with
          | nil => rfl
          | cons a rest =>
            dsimp only
            unfold Dec.gt
            rw [Dec.lt_eq_not_le]
            by_cases hcmp : (req.price.le
                (a.price.mul ((Dec.ofInt 1).add cfg.maxSlippage))) = true
            · simp [hcmp]
            · simp [hcmp]
        · conv_lhs => rw [if_neg hside]
          conv_rhs => rw [if_neg hside]
          cases bbids with
          | nil => rfl
          | cons bb rest =>
            dsimp only
            rw [Dec.lt_eq_not_le]
            by_cases hcmp : ((bb.price.mul
                ((Dec.ofInt 1).sub cfg.maxSlippage)).le req.price) = true
            · simp [hcmp]
            · simp [hcmp]
    · conv_lhs => rw [if_neg hs]
      conv_rhs => rw [if_neg hs]
      rfl

/-- The factored daily block is the ordered pair of spec checks 6, 7. -/
lemma dailySection_spec (cfg : RiskConfig) (usage : Except String (Int × Dec))
    (req : OrderRequest) :
    (dailySection cfg usage req).map RiskReject.reason =
      firstSome [specDailyVolume cfg usage req, specDailyOrders cfg usage] := by
  unfold dailySection specDailyVolume specDailyOrders
  cases usage with
  | error e =>
    dsimp only
    by_cases hv : ((Dec.ofInt 0).lt cfg.maxDailyValue) = true <;>
      by_cases ho : 0 < cfg.maxDailyOrders <;>
      simp [firstSome, hv, ho]
  | ok u =>
    dsimp only
    by_cases hv : ((Dec.ofInt 0).lt cfg.maxDailyValue) = true <;>
      by_cases ho : 0 < cfg.maxDailyOrders <;>
      by_cases hcv : ((u.2.add (req.price.mul req.size)).le cfg.maxDailyValue) = true <;>
      by_cases hco : u.1 + 1 ≤ cfg.maxDailyOrders <;>
      simp [firstSome, hv, ho, hcv, hco, Dec.lt_eq_not_le, Int.not_le]

/-- C7: `CheckOrder` evaluates the pre-trade checks in exactly the
spec's fixed order with first-failure short-circuit: its reason tag
equals, for every configuration, book state, clock, usage-store result
and request, the first failing check of the ordered list
`price_bounds, invalid_size, max_value, slippage/stale_data,
restricted_market, daily_volume_limit, daily_order_limit`. -/
theorem c7_check_order_sequence (cfg : RiskConfig) (book : Option Orderbook)
    (now : Nat) (usage : Except String (Int × Dec)) (req : OrderRequest) :
    (checkOrder cfg book now usage req).map RiskReject.reason =
      checkOrderSpec cfg book now usage req := by
  unfold checkOrder checkOrderSpec specPriceBounds specInvalidSize specMaxValue
    specRestricted
  rw [← slippageSection_spec cfg book now req]
  by_cases h1 : (req.price.le (Dec.ofInt 0) || (Dec.ofInt 1).le req.price) = true
  · simp [firstSome, h1]
  · by_cases h2 : (req.size.le (Dec.ofInt 0)) = true
    · simp [firstSome, h1, h2]
    · by_cases h3 : ((Dec.ofInt 0).lt cfg.maxOrderValue &&
          cfg.maxOrderValue.lt (req.price.mul req.size)) = true
      · simp [firstSome, h1, h2, h3]
      · cases hslip : slippageSection cfg book now req with
        | some r => simp [firstSome, h1, h2, h3, hslip]
        | none =>
          by_cases h5 : req.tokenID ∈ cfg.restrictedMkts
          · simp [firstSome, h1, h2, h3, hslip, h5]
          · simp only [h1, h2, h3, hslip, h5, if_false, Bool.false_eq_true,
              if_neg, Option.map_none, firstSome]
            simpa [firstSome, h1, h2, h3, hslip, h5] using
              dailySection_spec cfg usage req

/-! ## Gateway orchestrator, from `internal/service/gateway.go` -/

/-- `model.PolymarketCreds` (`model/tenant.go`). -/
structure PolymarketCreds where
  address : String
  l2ApiKey : String
  l2ApiSecret : String
  l2ApiPassphrase : String
  privateKey : String
deriving DecidableEq

/-- `model.RateLimitConfig` (`model/tenant.go`). -/
structure RateLimitConfig where
  qps : Dec
  burst : Int
deriving DecidableEq

/-- `model.Tenant` (`model/tenant.go`). -/
structure Tenant where
  id : String
  name : String
  apiKey : String
  allowedSigners : List String
  creds : PolymarketCreds
  risk : RiskConfig
  rate : RateLimitConfig
deriving DecidableEq

/-- `auth.APIKey`: the L2 credentials attached to the exchange client. -/
structure APIKey where
  key : String
  secret : String
  passphrase : String
deriving DecidableEq

/-- `clobtypes.SignedOrder`: the envelope POSTed to the exchange. -/
structure SignedOrder where
  order : ClobOrder
  signature : String
  owner : String
  orderType : String
  postOnly : Bool
deriving DecidableEq

/-- The gateway-wide fast signer (`signer.Signer`, built once in
`NewGatewayService` from the configured gateway private key): its
derived address and its raw secp256k1 signing function. -/
structure FastSigner where
  address : Nat
  ecSign : List Nat → List Nat

/-- The remote order book returned by the exchange book-query endpoint
(used by `checkMaxSlippage`). -/
structure BookResp where
  bids : List PriceLevelRaw
  asks : List PriceLevelRaw
deriving DecidableEq

/-- Go `strings.ToLower` on ASCII. -/
def lowerAsciiChar (c : Char) : Char :=
  if 65 ≤ c.toNat ∧ c.toNat ≤ 90 then Char.ofNat (c.toNat + 32) else c

/-- Lower-case an ASCII string. -/
def lowerAscii (s : String) : String := ⟨s.data.map lowerAsciiChar⟩

/-- Is this an ASCII whitespace character (`strings.TrimSpace`)? -/
def isSpaceChar (c : Char) : Bool :=
  c = ' ' ∨ c = '\t' ∨ c = '\n' ∨ c = '\r'

/-- Go `strings.TrimSpace` on ASCII strings. -/
def trimAscii (s : String) : String :=
  ⟨((s.data.dropWhile isSpaceChar).reverse.dropWhile isSpaceChar).reverse⟩

/-- `strings.EqualFold` on ASCII strings. -/
def equalFold (a b : String) : Bool := lowerAscii a == lowerAscii b

/-- Hex-digit test for `common.IsHexAddress`. -/
def isHexDigitChar (c : Char) : Bool := (hexVal c).isSome

/-- `common.IsHexAddress` + `common.HexToAddress`: an optional 0x marker
then exactly 40 hex digits, parsed big-endian. -/
def parseHexAddress (s : String) : Option Nat :=
  let body :=
    match s.data with
    | '0' :: 'x' :: rest => rest
    | '0' :: 'X' :: rest => rest
    | rest => rest
  if body.length = 40 ∧ body.all isHexDigitChar then
    some (body.foldl (fun acc c => acc * 16 + (hexVal c).getD 0) 0)
  else none

/-- `common.Address.Hex()` modelled as lower-case `0x`-prefixed hex.
(Go emits EIP-55 mixed case, but the gateway only ever compares these
strings case-insensitively, so the lower-case model is faithful for
every comparison it feeds.) -/
def addrHex (a : Nat) : String :=
  "0x" ++ bytesToHex ((List.range 20).map (fun i => a / 256 ^ (19 - i) % 256))

/-- `NewStaticSigner` (`signing.go` lines 37-48): validate and parse the
signer address; the result is the `(address, chainID)` pair the static
signer carries. -/
def newStaticSigner (address : String) (chainID : Nat) :
    Except String (Nat × Nat) :=
  if address = "" then .error "signer address is required"
  else
    match parseHexAddress address with
    | none => .error "invalid signer address"
    | some a => .ok (a, chainID)

/-- `verifyOrderSignature` entry with the string signer address exactly
as the Go function receives it (empty-signature and address validation
in source order, then the core recovery check). -/
def verifyOrderSignatureStr (keccak : List Nat → List Nat)
    (ecRecover : List Nat → List Nat → Option Nat) (o : ClobOrder)
    (signature signerAddr : String) (chainID : Nat) : Except String Unit :=
  if signature = "" then .error "signature is required"
  else
    match parseHexAddress signerAddr with
    | none => .error "invalid signer address"
    | some a => verifyOrderSignature keccak ecRecover o signature a chainID

/-- `signatureTypeSupported` (`signing.go` lines 168-178): nil, EOA (0)
and Proxy (1) are verifiable. -/
def signatureTypeSupported (sigType : Option Nat) : Bool :=
  match sigType with
  | none => true
  | some t => t = 0 ∨ t = 1

/-- `tenantAllowsSigner` (`gateway.go` lines 530-541). -/
def tenantAllowsSigner (tenant : Tenant) (signer : String) : Bool :=
  if tenant.allowedSigners.isEmpty then true
  else
    tenant.allowedSigners.any
      (fun allowed => lowerAscii (trimAscii allowed) ==
        lowerAscii (trimAscii signer))

/-- `resolveAPIKey` (`gateway.go` lines 512-528). -/
def resolveAPIKey (tenant : Tenant) (req : OrderRequest) :
    Except String APIKey :=
  let tenantKey : Except String APIKey :=
    if tenant.creds.l2ApiKey = "" ∨ tenant.creds.l2ApiSecret = "" ∨
        tenant.creds.l2ApiPassphrase = "" then
      .error "missing L2 api credentials"
    else
      .ok ⟨tenant.creds.l2ApiKey, tenant.creds.l2ApiSecret,
        tenant.creds.l2ApiPassphrase⟩
  match req.l2 with
  | some l2 =>
    if l2.apiKey ≠ "" ∧ l2.apiSecret ≠ "" ∧ l2.apiPassphrase ≠ "" then
      .ok ⟨l2.apiKey, l2.apiSecret, l2.apiPassphrase⟩
    else tenantKey
  | none => tenantKey

/-- `requestFromOrder` (`gateway.go` lines 543-579), on the non-nil
order its callers guarantee: reconstruct token, price, size and side
from the signable order's amounts (price and size pass through float64
in Go; modelled exactly). -/
def requestFromOrder (ord : ClobOrder) : OrderRequest :=
  let maker : Dec := ⟨ord.makerAmount, 1⟩
  let taker : Dec := ⟨ord.takerAmount, 1⟩
  let ps : Dec × Dec :=
    if upperAscii ord.side = "BUY" then
      if taker.isZero then (⟨0, 1⟩, ⟨0, 1⟩) else (maker.div taker, taker)
    else if upperAscii ord.side = "SELL" then
      if maker.isZero then (⟨0, 1⟩, ⟨0, 1⟩) else (taker.div maker, maker)
    else (⟨0, 1⟩, ⟨0, 1⟩)
  { tokenID := toString ord.tokenId, price := ps.1, size := ps.2,
    side := ord.side, orderType := "", expiration := 0, postOnly := none,
    signatureType := none, signature := "", signer := "", signable := none,
    l2 := none }

/-- `checkMaxSlippage` (`gateway.go` lines 471-510): the defensive
re-check against the remote book (`fetchBook` abstracts the exchange
book-query REST call). -/
def checkMaxSlippage (tenant : Tenant) (req : OrderRequest)
    (fetchBook : Unit → Except String BookResp) : Except String Unit :=
  if tenant.risk.maxSlippage.le (Dec.ofInt 0) then .ok ()
  else
    match fetchBook () with
    | .error e => .error ("failed to fetch order book for slippage check: " ++ e)
    | .ok book =>
      if upperAscii req.side = "BUY" then
        match book.asks with
        | [] => .error "order book empty for slippage check"
        | a :: _ =>
          match parseDecimal a.price with
          | none => .error "invalid ask price for slippage check"
          | some bestAsk =>
            let maxAllowed := bestAsk.mul ((Dec.ofInt 1).add tenant.risk.maxSlippage)
            if req.price.gt maxAllowed then
              .error ("risk reject: price " ++ fmtFixed req.price 4 ++
                " exceeds max slippage")
            else .ok ()
      else if upperAscii req.side = "SELL" then
        match book.bids with
        | [] => .error "order book empty for slippage check"
        | bb :: _ =>
          match parseDecimal bb.price with
          | none => .error "invalid bid price for slippage check"
          | some bestBid =>
            let minAllowed := bestBid.mul ((Dec.ofInt 1).sub tenant.risk.maxSlippage)
            if req.price.lt minAllowed then
              .error ("risk reject: price " ++ fmtFixed req.price 4 ++
                " exceeds max slippage")
            else .ok ()
      else .ok ()

/-- The fast path of `PlaceOrder` (`gateway.go` lines 193-228):
populate the exchange nonce from the nonce manager (when present and
successful), sign with the gateway-wide fast signer, build the signed
envelope with the resolved L2 key as owner, and POST (`postOrder`
abstracts the exchange client; its error is wrapped, and on a
nonce-substring error the code additionally fires a cache resync whose
effect is on the nonce manager only). -/
def fastPathSubmit {ρ : Type} (keccak : List Nat → List Nat)
    (fs : FastSigner) (nonceMgr : Option NonceState) (chainNonces : Nat → Nat)
    (apiKey : APIKey) (sg : SignableOrder) (ord : ClobOrder)
    (postOrder : SignedOrder → Except String ρ) : Except String ρ :=
  let ordN : ClobOrder :=
    match nonceMgr with
    | some st => { ord with nonce := (getExchangeNonce chainNonces st fs.address).1 }
    | none => ord
  let signature := signOrder keccak fs.ecSign 137 (toOptimizedOrder ordN)
  let signed : SignedOrder := ⟨ordN, signature, apiKey.key, sg.orderType, sg.postOnly⟩
  match postOrder signed with
  | .ok r => .ok r
  | .error e => .error ("polymarket api error: " ++ e)

/-- The external-signer path of `PlaceOrder` (`gateway.go` lines
229-277): resolve the effective signature type, verify (EIP-1271 for
Safe, ECDSA recovery for EOA/Proxy, or skip when the tenant allows
unverified signatures), then POST the client-signed envelope. -/
def externalPathSubmit {ρ : Type} (keccak : List Nat → List Nat)
    (ecRecover : List Nat → List Nat → Option Nat)
    (eip1271Verify : String → List Nat → String → Except String Bool)
    (tenant : Tenant) (req : OrderRequest) (staticAddr : Nat)
    (apiKey : APIKey) (sg : SignableOrder) (ord : ClobOrder)
    (postOrder : SignedOrder → Except String ρ) : Except String ρ :=
  let submit : Except String ρ :=
    match postOrder ⟨ord, req.signature, apiKey.key, sg.orderType, sg.postOnly⟩ with
    | .ok r => .ok r
    | .error e => .error ("polymarket api error: " ++ e)
  let sigType : Option Nat :=
    match req.signatureType with
    | some t => some t
    | none => ord.signatureType
  if ¬signatureTypeSupported sigType ∧ ¬tenant.risk.allowUnverifiedSignatures then
    .error "signature type not supported for verification"
  else if sigType = some 2 then
    if tenant.risk.allowUnverifiedSignatures then submit
    else
      let hash := typedDataHash keccak ord staticAddr 137
      match eip1271Verify (addrHex ord.maker) hash req.signature with
      | .error e => .error e
      | .ok false => .error "invalid safe signature"
      | .ok true => submit
  else if signatureTypeSupported sigType then
    let signerAddr :=
      if trimAscii req.signer = "" then addrHex ord.signer
      else trimAscii req.signer
    match verifyOrderSignatureStr keccak ecRecover ord req.signature
        signerAddr 137 with
    | .error _ => .error "invalid signature"
    | .ok _ => submit
  else submit

/-- Steps 2-7 of `PlaceOrder` (`gateway.go` lines 121-282) after the
parse of the request: risk check on the effective request, signer
resolution (custodial via the gateway fast signer when the trimmed
signature is empty, else static signer with signer-match and
allow-list checks), L2 credential resolution, signable construction
(`buildSignableOracle` abstracts `s.buildSignable`, which wraps the SDK
order builder) or signature-type override on a provided signable, the
defensive slippage re-check, and the submit path. The post-trade usage
hook runs after a successful submit and is not part of the returned
value. -/
def placeOrderChecked {ρ : Type} (keccak : List Nat → List Nat)
    (fastSigner : Option FastSigner) (nonceMgr : Option NonceState)
    (chainNonces : Nat → Nat) (riskBook : Option Orderbook) (now : Nat)
    (usage : Except String (Int × Dec))
    (buildSignableOracle : Nat → OrderRequest → Except String SignableOrder)
    (fetchBook : Unit → Except String BookResp)
    (postOrder : SignedOrder → Except String ρ)
    (eip1271Verify : String → List Nat → String → Except String Bool)
    (ecRecover : List Nat → List Nat → Option Nat)
    (tenant : Tenant) (req : OrderRequest)
    (provided : Option (SignableOrder × ClobOrder)) (riskReq : OrderRequest) :
    Except String ρ :=
  match checkOrder tenant.risk riskBook now usage riskReq with
  | some rj => .error rj.msg
  | none =>
    if trimAscii req.signature = "" then
      match fastSigner with
      | none => .error "signature required or gateway private key not configured"
      | some fs =>
        match resolveAPIKey tenant req with
        | .error e => .error e
        | .ok apiKey =>
          let builtRes : Except String (SignableOrder × ClobOrder) :=
            match provided with
            | some pair =>
              match req.signatureType with
              | some st =>
                .ok ({ pair.1 with
                        order := some { pair.2 with signatureType := some st } },
                     { pair.2 with signatureType := some st })
              | none => .ok pair
            | none =>
              match buildSignableOracle fs.address req with
              | .error e => .error e
              | .ok sg =>
                match sg.order with
                | some ord => .ok (sg, ord)
                | none => .error "signable order is required"
          match builtRes with
          | .error e => .error e
          | .ok (sg, ord) =>
            match checkMaxSlippage tenant riskReq fetchBook with
            | .error e => .error e
            | .ok _ =>
              fastPathSubmit keccak fs nonceMgr chainNonces apiKey sg ord
                postOrder
    else
      let signerAddr0 := trimAscii req.signer
      let signerAddr :=
        if signerAddr0 = "" then
          match provided with
          | some pair => addrHex pair.2.signer
          | none => signerAddr0
        else signerAddr0
      let mismatch : Bool :=
        match provided with
        | some pair =>
          req.signer ≠ "" && !equalFold (addrHex pair.2.signer) req.signer
        | none => false
      if mismatch then .error "signer does not match signable order"
      else if signerAddr = "" then
        .error "signer address required when signature is provided"
      else if ¬tenantAllowsSigner tenant signerAddr then
        .error "signer not allowed for tenant"
      else
        match newStaticSigner signerAddr 137 with
        | .error e => .error e
        | .ok staticSig =>
          match resolveAPIKey tenant req with
          | .error e => .error e
          | .ok apiKey =>
            let builtRes : Except String (SignableOrder × ClobOrder) :=
              match provided with
              | some pair =>
                match req.signatureType with
                | some st =>
                  .ok ({ pair.1 with
                          order := some { pair.2 with signatureType := some st } },
                       { pair.2 with signatureType := some st })
                | none => .ok pair
              | none =>
                match buildSignableOracle staticSig.1 req with
                | .error e => .error e
                | .ok sg =>
                  match sg.order with
                  | some ord => .ok (sg, ord)
                  | none => .error "signable order is required"
            match builtRes with
            | .error e => .error e
            | .ok (sg, ord) =>
              match checkMaxSlippage tenant riskReq fetchBook with
              | .error e => .error e
              | .ok _ =>
                externalPathSubmit keccak ecRecover eip1271Verify tenant req
                  staticSig.1 apiKey sg ord postOrder

/-- `GatewayService.PlaceOrder` (`gateway.go` lines 103-283): the panic
gate, the signature/signable shape check, the signable parse (with the
risk request reconstructed from a provided signable), then the checked
pipeline above. -/
def placeOrder {ρ : Type} (keccak : List Nat → List Nat) (panicMode : Bool)
    (fastSigner : Option FastSigner) (nonceMgr : Option NonceState)
    (chainNonces : Nat → Nat) (riskBook : Option Orderbook) (now : Nat)
    (usage : Except String (Int × Dec))
    (buildSignableOracle : Nat → OrderRequest → Except String SignableOrder)
    (fetchBook : Unit → Except String BookResp)
    (postOrder : SignedOrder → Except String ρ)
    (eip1271Verify : String → List Nat → String → Except String Bool)
    (ecRecover : List Nat → List Nat → Option Nat)
    (tenant : Tenant) (req : OrderRequest) : Except String ρ :=
  if panicMode then .error "system in panic mode: all trading suspended"
  else if req.signature ≠ "" ∧ req.signable = none then
    .error "signable order required when providing signature"
  else
    match req.signable with
    | some sg =>
      match sg.order with
      | none => .error "signable order is required"
      | some ord =>
        placeOrderChecked keccak fastSigner nonceMgr chainNonces riskBook now
          usage buildSignableOracle fetchBook postOrder eip1271Verify ecRecover
          tenant req (some (sg, ord)) (requestFromOrder ord)
    | none =>
      placeOrderChecked keccak fastSigner nonceMgr chainNonces riskBook now
        usage buildSignableOracle fetchBook postOrder eip1271Verify ecRecover
        tenant req none req

/-- `GatewayService.ActivatePanicMode` (`gateway.go` lines 285-289):
store `true` into the panic flag and invoke `CancelAll` for the caller
(`cancelAll` abstracts the pass-through to the exchange client); the
result is the flag value paired with the cancel outcome. -/
def activatePanicMode {γ : Type} (cancelAll : Unit → Except String γ) :
    Bool × Except String γ :=
  (true, cancelAll ())

/-- The operations of `GatewayService` and whether each writes the
process-global panic flag: only `ActivatePanicMode` stores (it stores
`true`); no operation in the source ever stores `false`. -/
inductive GatewayOp
  | placeOrderOp
  | cancelOrderOp
  | cancelAllOp
  | buildTypedOrderOp
  | activatePanicOp
  | getFillsOp
  | getOrderbookOp
deriving DecidableEq

/-- The panic flag after one gateway operation, as written by the
source: `ActivatePanicMode` stores `true`, every other operation only
reads it. -/
def panicFlagAfter (op : GatewayOp) (flag : Bool) : Bool :=
  match op with
  | .activatePanicOp => true
  | _ => flag

/-- Does `needle` lead `hay` (character-list version)? -/
def leadsWith : List Char → List Char → Bool
  | [], _ => true
  | _ :: _, [] => false
  | a :: as, b :: bs => a == b && leadsWith as bs

/-- Does `hay` contain `needle` as a contiguous run? -/
def hasSub (needle : List Char) : List Char → Bool
  | [] => leadsWith needle []
  | c :: rest => leadsWith needle (c :: rest) || hasSub needle rest

/-- Substring test (`strings.Contains`). -/
def containsSub (s sub : String) : Bool := hasSub sub.data s.data

/-- `apperrors.AppError` (package `apperrors`, concatenated into
`internal/pkg/logger/logger.go` after the document separator): the
tagged error envelope with its error kind, message, suggestion and HTTP
status. The nil `Cause` of the mapped errors is omitted. -/
structure AppError where
  errType : String
  message : String
  suggestion : String
  httpStatus : Nat
deriving DecidableEq

/-- `apperrors.mapTypeToStatus`: error kind → HTTP status. -/
def mapTypeToStatus (t : String) : Nat :=
  if t = "RISK_REJECT" ∨ t = "INVALID_REQUEST" then 400
  else if t = "AUTH_FAILED" then 401
  else if t = "NONCE_ERROR" then 409
  else if t = "SYSTEM_PANIC" then 503
  else if t = "NOT_FOUND" then 404
  else if t = "UPSTREAM_ERROR" then 502
  else 500

/-- `apperrors.mapTypeToSuggestion`. -/
def mapTypeToSuggestion (t : String) : String :=
  if t = "RISK_REJECT" then "Check order parameters against risk limits."
  else if t = "NONCE_ERROR" then "Retry the request."
  else if t = "AUTH_FAILED" then "Check API keys and signatures."
  else if t = "SYSTEM_PANIC" then "Wait for system recovery."
  else ""

/-- `apperrors.New`: build the envelope with the derived status and
suggestion. -/
def newAppError (errType msg : String) : AppError :=
  ⟨errType, msg, mapTypeToSuggestion errType, mapTypeToStatus errType⟩

/-- `mapServiceError` (`handler/audit.go` lines 214-230): the §7
substring classification of a service error's text, applied by the
handlers in that file — `PlaceOrder` included — to every service error
before it reaches the error-mapping middleware. A plain error that
matches no substring goes through `apperrors.Wrap`, which tags it
INTERNAL_ERROR with its own text. -/
def mapServiceError (msg : String) : AppError :=
  if containsSub msg "risk reject" then newAppError "RISK_REJECT" msg
  else if containsSub msg "signature" || containsSub msg "unauthorized" then
    newAppError "AUTH_FAILED" msg
  else if containsSub msg "nonce" then newAppError "NONCE_ERROR" msg
  else if containsSub msg "panic" then newAppError "SYSTEM_PANIC" msg
  else newAppError "INTERNAL_ERROR" msg

/-! ## Claim C6 -/

/-- C6: with the panic flag set, every `PlaceOrder` call — for every
tenant, request, oracle and downstream collaborator — returns the panic
error immediately (its value does not depend on the risk inputs, the
signer, or the exchange, so no risk check, signing or submission takes
place); the repository's own error mapper `mapServiceError`
(`handler/audit.go`, applied there to every `PlaceOrder` service error)
classifies that error as SYSTEM_PANIC with HTTP status 503 per
`apperrors`; `ActivatePanicMode` stores `true` and invokes `CancelAll`
for the caller; and no gateway operation ever clears a set flag. -/
theorem c6_panic_mode {ρ γ : Type} (keccak : List Nat → List Nat)
    (fastSigner : Option FastSigner) (nonceMgr : Option NonceState)
    (chainNonces : Nat → Nat) (riskBook : Option Orderbook) (now : Nat)
    (usage : Except String (Int × Dec))
    (buildSignableOracle : Nat → OrderRequest → Except String SignableOrder)
    (fetchBook : Unit → Except String BookResp)
    (postOrder : SignedOrder → Except String ρ)
    (eip1271Verify : String → List Nat → String → Except String Bool)
    (ecRecover : List Nat → List Nat → Option Nat)
    (tenant : Tenant) (req : OrderRequest)
    (cancelAll : Unit → Except String γ) :
    placeOrder keccak true fastSigner nonceMgr chainNonces riskBook now usage
      buildSignableOracle fetchBook postOrder eip1271Verify ecRecover tenant
      req = .error "system in panic mode: all trading suspended" ∧
    (mapServiceError "system in panic mode: all trading suspended").errType =
      "SYSTEM_PANIC" ∧
    (mapServiceError "system in panic mode: all trading suspended").httpStatus =
      503 ∧
    (∀ op : GatewayOp, panicFlagAfter op true = true) ∧
    (activatePanicMode cancelAll).1 = true ∧
    (activatePanicMode cancelAll).2 = cancelAll () :=
  ⟨rfl, by decide, by decide, fun op => by cases op <;> rfl, rfl, rfl⟩

/-! ## Claim C8 -/

/-- `OrderHandler.PlaceOrder` response body (`order.go` lines 36-51):
a gin error object for failures, the exchange response for success. -/
inductive HandlerBody (ρ : Type)
  | errJson (msg : String)
  | okJson (resp : ρ)
deriving DecidableEq

/-- `OrderHandler.PlaceOrder` response mapping (`order.go` lines 36-51):
every service error is returned as HTTP 500 with the raw error string in
a gin error object; success is HTTP 200. -/
def placeOrderHandlerResponse {ρ : Type} (svcResult : Except String ρ) :
    Nat × HandlerBody ρ :=
  match svcResult with
  | .error e => (500, .errJson e)
  | .ok r => (200, .okJson r)

/-- S2's tenant: `max_order_value = 1000`, everything else disabled. -/
def c8Tenant : Tenant where
  id := "t1"
  name := "demo"
  apiKey := "gk"
  allowedSigners := []
  creds := ⟨"", "k", "s", "p", ""⟩
  risk := ⟨⟨1000, 1⟩, ⟨0, 1⟩, 0, ⟨0, 1⟩, [], false⟩
  rate := ⟨⟨0, 1⟩, 0⟩

/-- S2's request: `price = 1.5`, `size = 10`. -/
def c8Req : OrderRequest where
  tokenID := "999"
  price := ⟨15, 10⟩
  size := ⟨10, 1⟩
  side := "BUY"
  orderType := "GTC"
  expiration := 0
  postOnly := none
  signatureType := none
  signature := ""
  signer := ""
  signable := none
  l2 := none

/-- C8: the claim states a price-bounds risk rejection surfaces on
POST /v1/orders as HTTP 400 with a `RISK_REJECT` error envelope. The
handler however maps every service error — the price-bounds rejection
included — to HTTP 500 with a bare gin error object (its own comment
reads: in a real app, map errors to status codes). At S2's input the
response is 500 with the raw risk message, not 400, and not the claimed
envelope. -/
theorem c8_price_bounds_http_status :
    placeOrderHandlerResponse
      (placeOrder (ρ := Nat) wKeccak false none none (fun _ => 0) none 0
        (.ok (0, ⟨0, 1⟩)) (fun _ _ => .error "unused") (fun _ => .error "unused")
        (fun _ => .ok 0) (fun _ _ _ => .ok true) (fun _ _ => none)
        c8Tenant c8Req) =
      (500, .errJson "risk reject: price 1.5000 out of bounds (0-1)") ∧
    (500 : Nat) ≠ 400 := by
  refine ⟨?_, by decide⟩
  decide

/-! ## Claim C9 -/

/-- A tenant with a different stored private key, all else equal. -/
def Tenant.withPrivateKey (t : Tenant) (pk : String) : Tenant :=
  { t with creds := { t.creds with privateKey := pk } }

/-- C9: in the custodial path (empty request signature) the gateway
signs with the single gateway-wide fast signer for every tenant alike:
(1) `PlaceOrder`'s result never depends on the tenant's stored private
key; (2) with no gateway-wide key configured, a custodial request that
passes risk fails with the missing-key error — for every tenant,
including tenants that do have a private key; (3) with a gateway key
configured, the custodial path reduces to the fast-path submit; and
(4) the fast path submits an envelope signed by the gateway signer's
key over the nonce-populated order. -/
theorem c9_custodial_gateway_key {ρ : Type} (keccak : List Nat → List Nat)
    (fastSigner : Option FastSigner) (nonceMgr : Option NonceState)
    (chainNonces : Nat → Nat) (riskBook : Option Orderbook) (now : Nat)
    (usage : Except String (Int × Dec))
    (buildSignableOracle : Nat → OrderRequest → Except String SignableOrder)
    (fetchBook : Unit → Except String BookResp)
    (postOrder : SignedOrder → Except String ρ)
    (eip1271Verify : String → List Nat → String → Except String Bool)
    (ecRecover : List Nat → List Nat → Option Nat)
    (tenant : Tenant) (req : OrderRequest) :
    (∀ (panicMode : Bool) (pk : String),
      placeOrder keccak panicMode fastSigner nonceMgr chainNonces riskBook now
        usage buildSignableOracle fetchBook postOrder eip1271Verify ecRecover
        tenant req =
      placeOrder keccak panicMode fastSigner nonceMgr chainNonces riskBook now
        usage buildSignableOracle fetchBook postOrder eip1271Verify ecRecover
        (tenant.withPrivateKey pk) req) ∧
    (req.signature = "" → req.signable = none → fastSigner = none →
      checkOrder tenant.risk riskBook now usage req = none →
      placeOrder keccak false fastSigner nonceMgr chainNonces riskBook now
        usage buildSignableOracle fetchBook postOrder eip1271Verify ecRecover
        tenant req =
        .error "signature required or gateway private key not configured") ∧
    (∀ (fs : FastSigner) (sg : SignableOrder) (ord : ClobOrder)
        (apiKey : APIKey),
      req.signature = "" → req.signable = none → fastSigner = some fs →
      checkOrder tenant.risk riskBook now usage req = none →
      resolveAPIKey tenant req = .ok apiKey →
      buildSignableOracle fs.address req = .ok sg → sg.order = some ord →
      checkMaxSlippage tenant req fetchBook = .ok () →
      placeOrder keccak false fastSigner nonceMgr chainNonces riskBook now
        usage buildSignableOracle fetchBook postOrder eip1271Verify ecRecover
        tenant req =
        fastPathSubmit keccak fs nonceMgr chainNonces apiKey sg ord postOrder) ∧
    (∀ (fs : FastSigner) (apiKey : APIKey) (sg : SignableOrder)
        (ord : ClobOrder),
      fastPathSubmit keccak fs nonceMgr chainNonces apiKey sg ord postOrder =
        (let ordN : ClobOrder :=
          match nonceMgr with
          | some st =>
            { ord with nonce := (getExchangeNonce chainNonces st fs.address).1 }
          | none => ord
        match postOrder ⟨ordN,
            signOrder keccak fs.ecSign 137 (toOptimizedOrder ordN),
            apiKey.key, sg.orderType, sg.postOnly⟩ with
        | .ok r => .ok r
        | .error e => .error ("polymarket api error: " ++ e))) := by
  have htrim : trimAscii "" = "" := by decide
  refine ⟨fun panicMode pk => rfl, ?_, ?_, fun fs apiKey sg ord => rfl⟩
  · intro hsig hsgn hfs hrisk
    simp only [placeOrder, hsig, hsgn, hfs, placeOrderChecked, hrisk, htrim]
    simp
  · intro fs sg ord apiKey hsig hsgn hfs hrisk hkey hbuild hord hslip
    simp only [placeOrder, hsig, hsgn, hfs, placeOrderChecked, hrisk, hkey,
      hbuild, hord, hslip, htrim]
    simp [hord]

/-- Witness fixture: the custodial signable order the builder returns. -/
def w9Ord : ClobOrder where
  salt := 1
  maker := 0xabc
  signer := 0xabc
  taker := 0
  tokenId := 999
  makerAmount := 5
  takerAmount := 10
  expiration := none
  nonce := 0
  feeRateBps := 0
  side := "BUY"
  signatureType := some 0

/-- Witness fixture: the signable wrapper for `w9Ord`. -/
def w9Signable : SignableOrder := ⟨some w9Ord, "GTC", false⟩

/-- Witness fixture: a tenant that does hold its own private key — which
the custodial path must ignore. -/
def w9Tenant : Tenant where
  id := "t9"
  name := "demo"
  apiKey := "gk"
  allowedSigners := []
  creds := ⟨"", "k", "s", "p", "tenant-own-key-ignored"⟩
  risk := ⟨⟨1000, 1⟩, ⟨0, 1⟩, 0, ⟨0, 1⟩, [], false⟩
  rate := ⟨⟨0, 1⟩, 0⟩

/-- Witness fixture: a custodial request (empty signature). -/
def w9Req : OrderRequest where
  tokenID := "999"
  price := ⟨1, 2⟩
  size := ⟨10, 1⟩
  side := "BUY"
  orderType := "GTC"
  expiration := 0
  postOnly := none
  signatureType := none
  signature := ""
  signer := ""
  signable := none
  l2 := none

/-- Witness for C9: at the concrete custodial request, with the gateway
fast signer configured and the exchange oracle echoing the submitted
envelope, `PlaceOrder` returns the envelope signed by the gateway key
over the built order — the tenant's own stored key plays no role. -/
theorem c9_custodial_gateway_key_witness :
    placeOrder (ρ := SignedOrder) wKeccak false (some ⟨0xabc, wSign⟩) none
      (fun _ => 0) none 0 (.ok (0, ⟨0, 1⟩)) (fun _ _ => .ok w9Signable)
      (fun _ => .error "unused") (fun env => .ok env) (fun _ _ _ => .ok true)
      (fun _ _ => none) w9Tenant w9Req =
    .ok ⟨w9Ord, signOrder wKeccak wSign 137 (toOptimizedOrder w9Ord), "k",
      "GTC", false⟩ := by
  have h := (c9_custodial_gateway_key (ρ := SignedOrder) wKeccak
    (some ⟨0xabc, wSign⟩) none (fun _ => 0) none 0 (.ok (0, ⟨0, 1⟩))
    (fun _ _ => .ok w9Signable) (fun _ => .error "unused") (fun env => .ok env)
    (fun _ _ _ => .ok true) (fun _ _ => none) w9Tenant w9Req).2.2.1
    ⟨0xabc, wSign⟩ w9Signable w9Ord ⟨"k", "s", "p"⟩ rfl rfl rfl (by decide)
    rfl rfl rfl rfl
  rw [h]
  rfl

end Polygate













